import Mathlib

/-!
Verification of the point-of-sale cart/checkout core of the POS-MORALES-V1
front end.  The definitions below are a shallow embedding of the relevant
TypeScript modules: the POS checkout page (POSPage.tsx), the tables page
(TablesPage.tsx), the invoices page (InvoicesPage.tsx) and the
server-sent-events hook.  Money amounts are modelled as rationals, machine
integers as Nat/Int, and the asynchronous API boundary as an explicit
response oracle threaded through the handlers.
-/

namespace PosMorales

/-! Basic enumerations shared by the embedded modules. -/

inductive DiscountKind where
  | percent
  | amount
deriving DecidableEq, Repr

inductive PayMethod where
  | EFECTIVO
  | TARJETA_CREDITO
deriving DecidableEq, Repr

inductive TableStatus where
  | DISPONIBLE
  | OCUPADA
  | RESERVADA
  | FUERA_DE_SERVICIO
deriving DecidableEq, Repr

/-- A line of the in-memory POS cart, as consumed by POSPage.tsx
(fields `id`, `code`, `name`, `price`, `quantity` of the cart slice items). -/
structure CartItem where
  id : Nat
  code : String
  name : String
  price : ℚ
  quantity : Nat
deriving DecidableEq, Repr

/-- The record returned by the cart total selector:
`{ subtotal, discountAmount, total, itemCount }`. -/
structure CartTotals where
  subtotal : ℚ
  discountAmount : ℚ
  total : ℚ
  itemCount : Nat
deriving DecidableEq, Repr

/-- Sum of `price * quantity` over the cart lines. -/
def cartSubtotal (items : List CartItem) : ℚ :=
  (items.map (fun it => it.price * (it.quantity : ℚ))).sum

/-- Sum of `quantity` over the cart lines. -/
def cartItemCount (items : List CartItem) : Nat :=
  (items.map (fun it => it.quantity)).sum

/-- Modelled from the spec: the cart slice module
(src/modules/pos/store/cartSlice) is not present among the repository
sources, only its callers are, so `selectCartTotal` is modelled from the
spec formulas: subtotal is the sum of `unitPrice * quantity` (the slice
stores the unit price in the field `price`), `discountAmount` is
`subtotal * value / 100` when the discount kind is percent and `value`
otherwise, clamped to the interval from `0` to `subtotal`, `total` is
`subtotal - discountAmount`, and `itemCount` is the sum of quantities. -/
def selectCartTotal (items : List CartItem) (value : ℚ) (kind : DiscountKind) : CartTotals :=
  let subtotal := cartSubtotal items
  let rawDiscount : ℚ := if kind = DiscountKind.percent then subtotal * value / 100 else value
  let discountAmount : ℚ := min (max rawDiscount 0) subtotal
  { subtotal := subtotal
    discountAmount := discountAmount
    total := subtotal - discountAmount
    itemCount := cartItemCount items }

/-- The two-line example cart of the spec: product A at 10000 with
quantity 2 and product B at 5000 with quantity 1. -/
def exampleItems : List CartItem :=
  [{ id := 1, code := "A", name := "Product A", price := 10000, quantity := 2 },
   { id := 2, code := "B", name := "Product B", price := 5000, quantity := 1 }]

theorem cartSubtotal_nonneg (items : List CartItem)
    (h : ∀ it ∈ items, 0 ≤ it.price) : 0 ≤ cartSubtotal items := by
  apply List.sum_nonneg
  intro x hx
  rcases List.mem_map.mp hx with ⟨it, hit, rfl⟩
  exact mul_nonneg (h it hit) (by positivity)

theorem clamp_of_bounds (a b : ℚ) (h0 : 0 ≤ a) (hab : a ≤ b) :
    min (max a 0) b = a := by
  rw [max_eq_left h0, min_eq_left hab]

/-- Claim C1: the derived totals satisfy the spec formulas; with
non-negative prices and a non-negative discount value the discount amount
stays between zero and the subtotal and the total stays non-negative, for
either discount kind; for an unclamped percent discount the percent
formula holds exactly; and the concrete two-line cart with a ten percent
discount yields subtotal 25000, discount 2500, total 22500, item count 3. -/
theorem c1_cart_totals (items : List CartItem) (value : ℚ) (kind : DiscountKind)
    (hprice : ∀ it ∈ items, 0 ≤ it.price) (hval : 0 ≤ value) :
    (selectCartTotal items value kind).subtotal = cartSubtotal items ∧
    (selectCartTotal items value kind).itemCount = cartItemCount items ∧
    (selectCartTotal items value kind).total =
      (selectCartTotal items value kind).subtotal -
        (selectCartTotal items value kind).discountAmount ∧
    0 ≤ (selectCartTotal items value kind).discountAmount ∧
    (selectCartTotal items value kind).discountAmount ≤
      (selectCartTotal items value kind).subtotal ∧
    0 ≤ (selectCartTotal items value kind).total ∧
    (kind = DiscountKind.percent → value ≤ 100 →
      (selectCartTotal items value kind).discountAmount =
        cartSubtotal items * value / 100) ∧
    selectCartTotal exampleItems 10 DiscountKind.percent =
      { subtotal := 25000, discountAmount := 2500, total := 22500, itemCount := 3 } := by
  have hsub : 0 ≤ cartSubtotal items := cartSubtotal_nonneg items hprice
  have hda : (selectCartTotal items value kind).discountAmount =
      min (max (if kind = DiscountKind.percent then cartSubtotal items * value / 100 else value) 0)
        (cartSubtotal items) := rfl
  have htot : (selectCartTotal items value kind).total =
      cartSubtotal items -
        min (max (if kind = DiscountKind.percent then cartSubtotal items * value / 100 else value) 0)
          (cartSubtotal items) := rfl
  refine ⟨rfl, rfl, rfl, ?_, ?_, ?_, ?_, ?_⟩
  · rw [hda]
    exact le_min (le_max_right _ _) hsub
  · rw [hda]
    exact min_le_right _ _
  · rw [htot]
    exact sub_nonneg.mpr (min_le_right _ _)
  · intro hk hv100
    subst hk
    have hraw : 0 ≤ cartSubtotal items * value / 100 := by positivity
    have hrawle : cartSubtotal items * value / 100 ≤ cartSubtotal items := by
      rw [div_le_iff₀ (by norm_num : (0:ℚ) < 100)]
      exact mul_le_mul_of_nonneg_left hv100 hsub
    have hda2 : (selectCartTotal items value DiscountKind.percent).discountAmount =
        min (max (cartSubtotal items * value / 100) 0) (cartSubtotal items) := by
      rw [hda, if_pos rfl]
    rw [hda2, clamp_of_bounds _ _ hraw hrawle]
  · norm_num [selectCartTotal, cartSubtotal, cartItemCount, exampleItems]

/-- Witness for C1 at the concrete spec cart. -/
theorem c1_cart_totals_witness :
    (∀ it ∈ exampleItems, 0 ≤ it.price) ∧ 0 ≤ (10 : ℚ) ∧
    (selectCartTotal exampleItems 10 DiscountKind.percent).total = 22500 := by
  refine ⟨by decide, by norm_num, ?_⟩
  have h := c1_cart_totals exampleItems 10 DiscountKind.percent (by decide) (by norm_num)
  have := h.2.2.2.2.2.2.2
  rw [this]

/-! Stock-availability guard (POSPage.tsx).

The product grid computes `stock = product.inventory?.quantity || 0`,
`cartQty = items.find(i => i.id === product.id)?.quantity || 0`,
`availableStock = stock - cartQty`, and refuses the click when
`availableStock <= 0`; the cart row computes
`canIncrement = item.quantity < maxStock` with the same stock lookup. -/

/-- Catalog snapshot of a product as POSPage holds it; `inventoryQuantity`
is `none` when the product carries no inventory record. -/
structure ProductSnapshot where
  id : Nat
  code : String
  name : String
  salePrice : ℚ
  inventoryQuantity : Option Int
deriving DecidableEq, Repr

/-- The `product.inventory?.quantity || 0` lookup. -/
def stockOf (p : ProductSnapshot) : Int :=
  match p.inventoryQuantity with
  | some q => q
  | none => 0

/-- The `items.find(i => i.id === product.id)?.quantity || 0` lookup. -/
def cartQuantityOf (items : List CartItem) (productId : Nat) : Nat :=
  match items.find? (fun it => it.id == productId) with
  | some it => it.quantity
  | none => 0

/-- The product-grid click guard: the dispatch of `addItem` happens iff
`stock - cartQty > 0` (the separate `disabled = stock === 0` attribute is
subsumed by this condition, since zero stock gives `availableStock <= 0`). -/
def gridAllowsAdd (p : ProductSnapshot) (items : List CartItem) : Bool :=
  let stock := stockOf p
  let cartQty : Int := (cartQuantityOf items p.id : Int)
  let availableStock := stock - cartQty
  decide (0 < availableStock)

/-- The cart-row increment guard `item.quantity < maxStock`. -/
def canIncrement (p : ProductSnapshot) (it : CartItem) : Bool :=
  decide ((it.quantity : Int) < stockOf p)

/-- Claim C4: both add guards allow a product exactly when the
last-fetched stock strictly exceeds the quantity already in the cart: the
guard is refused once the cart quantity reaches the stock value and
allowed strictly below it, for any non-negative stock. -/
theorem c4_stock_guard (p : ProductSnapshot) (items : List CartItem) (it : CartItem) :
    (gridAllowsAdd p items = true ↔ (cartQuantityOf items p.id : Int) < stockOf p) ∧
    (canIncrement p it = true ↔ (it.quantity : Int) < stockOf p) ∧
    ((cartQuantityOf items p.id : Int) = stockOf p → gridAllowsAdd p items = false) ∧
    (0 ≤ stockOf p → (cartQuantityOf items p.id : Int) < stockOf p →
      gridAllowsAdd p items = true) := by
  refine ⟨?_, ?_, ?_, ?_⟩
  · simp only [gridAllowsAdd, decide_eq_true_eq]
    omega
  · simp only [canIncrement, decide_eq_true_eq]
  · intro h
    simp only [gridAllowsAdd, decide_eq_false_iff_not]
    omega
  · intro _ h
    simp only [gridAllowsAdd, decide_eq_true_eq]
    omega

/-- Witness for C4: stock 3 with cart quantity 3 refuses a further add,
while cart quantity 2 allows it. -/
theorem c4_stock_guard_witness :
    ((cartQuantityOf [{ id := 7, code := "X", name := "X", price := 5, quantity := 3 }] 7 : Int) =
        stockOf { id := 7, code := "X", name := "X", salePrice := 5, inventoryQuantity := some 3 }) ∧
    gridAllowsAdd { id := 7, code := "X", name := "X", salePrice := 5, inventoryQuantity := some 3 }
      [{ id := 7, code := "X", name := "X", price := 5, quantity := 3 }] = false := by
  refine ⟨by decide, ?_⟩
  exact (c4_stock_guard
    { id := 7, code := "X", name := "X", salePrice := 5, inventoryQuantity := some 3 }
    [{ id := 7, code := "X", name := "X", price := 5, quantity := 3 }]
    { id := 7, code := "X", name := "X", price := 5, quantity := 3 }).2.2.1 (by decide)

/-! The add-items draft list of TablesPage.tsx: entries `{ product, quantity }`
manipulated by `addProductToList`, `updateItemQuantity` and
`removeItemFromList`. -/

/-- One entry of the draft list; the `product` reference is reduced to the
fields the handlers read (`product.id`, `product.salePrice`). -/
structure DraftItem where
  productId : Nat
  salePrice : ℚ
  quantity : Int
deriving DecidableEq, Repr

/-- `addProductToList`: increments the quantity of an existing entry for
the product id, otherwise appends a new entry with quantity 1. -/
def addProductToList (prev : List DraftItem) (productId : Nat) (salePrice : ℚ) :
    List DraftItem :=
  match prev.find? (fun i => i.productId == productId) with
  | some _ =>
      prev.map (fun i =>
        if i.productId == productId then { i with quantity := i.quantity + 1 } else i)
  | none => prev ++ [{ productId := productId, salePrice := salePrice, quantity := 1 }]

/-- `updateItemQuantity`: adds `delta` to the matching entry when the new
quantity stays positive (keeping the entry unchanged otherwise), then
filters out non-positive quantities. -/
def updateItemQuantity (prev : List DraftItem) (productId : Nat) (delta : Int) :
    List DraftItem :=
  (prev.map (fun i =>
    if i.productId == productId then
      if 0 < i.quantity + delta then { i with quantity := i.quantity + delta } else i
    else i)).filter (fun i => decide (0 < i.quantity))

/-- `removeItemFromList`: drops every entry with the given product id. -/
def removeItemFromList (prev : List DraftItem) (productId : Nat) : List DraftItem :=
  prev.filter (fun i => !(i.productId == productId))

/-- Invariant of the draft list: every quantity is at least 1 and product
ids are pairwise distinct. -/
def DraftInv (l : List DraftItem) : Prop :=
  (∀ i ∈ l, 1 ≤ i.quantity) ∧ (l.map (fun i => i.productId)).Nodup

/-- Quantity held in the draft list for a product id, 0 when absent. -/
def draftQuantityOf (l : List DraftItem) (productId : Nat) : Int :=
  match l.find? (fun i => i.productId == productId) with
  | some i => i.quantity
  | none => 0

theorem draft_find?_map (f : DraftItem → DraftItem)
    (hf : ∀ i, (f i).productId = i.productId) (pid : Nat) (l : List DraftItem) :
    (l.map f).find? (fun i => i.productId == pid) =
      (l.find? (fun i => i.productId == pid)).map f := by
  induction l with
  | nil => rfl
  | cons a t ih =>
    by_cases h : (a.productId == pid) = true
    · simp [List.find?, hf, h]
    · simp only [List.map_cons, List.find?]
      rw [hf a]
      simp only [h]
      exact ih

theorem draft_map_productId (f : DraftItem → DraftItem)
    (hf : ∀ i, (f i).productId = i.productId) (l : List DraftItem) :
    (l.map f).map (fun i => i.productId) = l.map (fun i => i.productId) := by
  rw [List.map_map]
  exact List.map_congr_left (fun a _ => hf a)

theorem draft_nodup_map (f : DraftItem → DraftItem)
    (hf : ∀ i, (f i).productId = i.productId) (l : List DraftItem)
    (h : (l.map (fun i => i.productId)).Nodup) :
    ((l.map f).map (fun i => i.productId)).Nodup := by
  rw [draft_map_productId f hf]
  exact h

/-- Claim C10: the three draft-list operations preserve the invariant
(every quantity at least 1, at most one entry per product id); adding an
already-present product increments the existing entry without changing the
list length; decrementing an entry whose quantity is 1 leaves the whole
list unchanged. -/
theorem c10_draft_invariant :
    (∀ (l : List DraftItem) pid sp, DraftInv l → DraftInv (addProductToList l pid sp)) ∧
    (∀ (l : List DraftItem) pid delta, DraftInv l → DraftInv (updateItemQuantity l pid delta)) ∧
    (∀ (l : List DraftItem) pid, DraftInv l → DraftInv (removeItemFromList l pid)) ∧
    (∀ (l : List DraftItem) pid sp j,
      l.find? (fun i => i.productId == pid) = some j →
      (addProductToList l pid sp).length = l.length ∧
      draftQuantityOf (addProductToList l pid sp) pid = draftQuantityOf l pid + 1) ∧
    (∀ (l : List DraftItem) pid j, DraftInv l →
      l.find? (fun i => i.productId == pid) = some j → j.quantity = 1 →
      updateItemQuantity l pid (-1) = l) := by
  have hfpres : ∀ pid : Nat, ∀ i : DraftItem,
      ((if i.productId == pid then { i with quantity := i.quantity + 1 } else i) :
        DraftItem).productId = i.productId := by
    intro pid i
    by_cases h : (i.productId == pid) = true <;> simp [h]
  have hgpres : ∀ (pid : Nat) (delta : Int), ∀ i : DraftItem,
      ((if i.productId == pid then
          if 0 < i.quantity + delta then { i with quantity := i.quantity + delta } else i
        else i) : DraftItem).productId = i.productId := by
    intro pid delta i
    by_cases h : (i.productId == pid) = true
    · by_cases h2 : 0 < i.quantity + delta <;> simp [h, h2]
    · simp [h]
  refine ⟨?_, ?_, ?_, ?_, ?_⟩
  · -- addProductToList preserves the invariant
    intro l pid sp ⟨hq, hnd⟩
    unfold addProductToList
    cases hfind : l.find? (fun i => i.productId == pid) with
    | some j =>
      refine ⟨?_, draft_nodup_map _ (hfpres pid) l hnd⟩
      intro i hi
      rcases List.mem_map.mp hi with ⟨a, ha, rfl⟩
      by_cases h : (a.productId == pid) = true
      · have := hq a ha
        simp only [h, if_true]
        omega
      · simp only [h]
        simp only [Bool.false_eq_true, if_false]
        exact hq a ha
    | none =>
      constructor
      · intro i hi
        rcases List.mem_append.mp hi with h | h
        · exact hq i h
        · rcases List.mem_singleton.mp h with rfl
          norm_num
      · rw [List.map_append]
        rw [List.nodup_append]
        refine ⟨hnd, List.nodup_singleton _, ?_⟩
        intro a ha hb
        rcases List.mem_map.mp ha with ⟨i, hi, rfl⟩
        have hnp := List.find?_eq_none.mp hfind i hi
        rcases List.mem_singleton.mp hb with h
        simp only [List.map_cons, List.map_nil, List.mem_singleton] at h
        exact hnp (by simpa using h)
  · -- updateItemQuantity preserves the invariant
    intro l pid delta ⟨hq, hnd⟩
    unfold updateItemQuantity
    constructor
    · intro i hi
      have h0 : 0 < i.quantity := by simpa using (List.mem_filter.mp hi).2
      omega
    · exact List.Nodup.sublist
        ((List.filter_sublist _).map (fun i : DraftItem => i.productId))
        (draft_nodup_map _ (hgpres pid delta) l hnd)
  · -- removeItemFromList preserves the invariant
    intro l pid ⟨hq, hnd⟩
    unfold removeItemFromList
    constructor
    · intro i hi
      exact hq i (List.mem_filter.mp hi).1
    · exact List.Nodup.sublist
        ((List.filter_sublist _).map (fun i : DraftItem => i.productId)) hnd
  · -- adding an existing product increments it in place
    intro l pid sp j hfind
    constructor
    · unfold addProductToList
      rw [hfind]
      exact List.length_map _ _
    · have hpj0 := List.find?_some hfind
      have hpj : (j.productId == pid) = true := hpj0
      unfold addProductToList draftQuantityOf
      rw [hfind]
      rw [draft_find?_map _ (hfpres pid) pid l, hfind]
      show (if (j.productId == pid) = true then
          ({ j with quantity := j.quantity + 1 } : DraftItem) else j).quantity =
        j.quantity + 1
      rw [if_pos hpj]
  · -- decrementing a quantity-1 entry leaves the list unchanged
    intro l pid j ⟨hq, hnd⟩ hfind hj1
    have hpj0 := List.find?_some hfind
    have hpj : (j.productId == pid) = true := hpj0
    have hjl : j ∈ l := List.mem_of_find?_eq_some hfind
    unfold updateItemQuantity
    have hmap : l.map (fun i : DraftItem =>
        if i.productId == pid then
          if 0 < i.quantity + (-1) then { i with quantity := i.quantity + (-1) } else i
        else i) = l := by
      have : ∀ a ∈ l, ((if a.productId == pid then
          if 0 < a.quantity + (-1) then { a with quantity := a.quantity + (-1) } else a
        else a : DraftItem)) = a := by
        intro a ha
        by_cases h : (a.productId == pid) = true
        · have haj : a = j := by
            have h1 : a.productId = pid := by simpa using h
            have h2 : j.productId = pid := by simpa using hpj
            exact List.inj_on_of_nodup_map hnd ha hjl (h1.trans h2.symm)
          subst haj
          rw [if_pos h, if_neg (by omega)]
        · rw [if_neg h]
      calc l.map _ = l.map id := List.map_congr_left this
        _ = l := List.map_id l
    rw [hmap]
    rw [List.filter_eq_self]
    intro a ha
    have := hq a ha
    simpa using this

/-- Witness for C10 at a concrete one-entry draft list: decrementing the
quantity-1 entry leaves it present with quantity 1. -/
theorem c10_draft_invariant_witness :
    DraftInv [{ productId := 1, salePrice := 4000, quantity := 1 }] ∧
    (([{ productId := 1, salePrice := 4000, quantity := 1 }] : List DraftItem).find?
        (fun i => i.productId == 1) =
      some { productId := 1, salePrice := 4000, quantity := 1 }) ∧
    updateItemQuantity [{ productId := 1, salePrice := 4000, quantity := 1 }] 1 (-1) =
      [{ productId := 1, salePrice := 4000, quantity := 1 }] := by
  refine ⟨⟨by decide, by decide⟩, by decide, ?_⟩
  exact c10_draft_invariant.2.2.2.2
    [{ productId := 1, salePrice := 4000, quantity := 1 }] 1
    { productId := 1, salePrice := 4000, quantity := 1 }
    ⟨by decide, by decide⟩ (by decide) (by decide)

/-! Checkout orchestration: `handleConfirmSale` of POSPage.tsx, embedded as
a function from the page state and a response oracle to the list of
effects the handler performs, in order.  The oracle returns, for each
issued request, either the error message of a rejected call or the numeric
id carried by the response (for the pay-table and create-sale responses
this is the invoice id; for the other calls the number is unused). -/

structure RestaurantTable where
  id : Nat
  tableNumber : Nat
  name : String
  status : TableStatus
  isActive : Bool
deriving DecidableEq, Repr

structure SaleDetail where
  productId : Nat
  quantity : Nat
  unitPrice : ℚ
  discountAmount : ℚ
deriving DecidableEq, Repr

structure SaleRequest where
  customerId : Option Nat
  paymentMethod : PayMethod
  discountPercent : ℚ
  amountReceived : ℚ
  notes : String
  details : List SaleDetail
deriving DecidableEq, Repr

structure OpenTableRequest where
  guestCount : Nat
  customerId : Option Nat
deriving DecidableEq, Repr

structure TableItemRequest where
  productId : Nat
  quantity : Nat
  unitPrice : ℚ
deriving DecidableEq, Repr

structure PayTableRequest where
  paymentMethod : PayMethod
  amountReceived : ℚ
  discountPercent : ℚ
  notes : Option String
deriving DecidableEq, Repr

inductive PosCall where
  | openTable (tableId : Nat) (req : OpenTableRequest)
  | addItems (tableId : Nat) (items : List TableItemRequest)
  | payTable (tableId : Nat) (req : PayTableRequest)
  | createSale (req : SaleRequest)
  | getInvoice (invoiceId : Nat)
deriving DecidableEq, Repr

inductive Eff where
  | call (c : PosCall)
  | setCompletedInvoice (invoiceId : Nat)
  | clearCart
  | clearTableSelection
  | closePaymentModal
  | showInvoiceConfirm
  | refetchCatalog
  | refetchTables
  | toastError (msg : String)
deriving DecidableEq, Repr

def Oracle : Type := PosCall → Except String Nat

/-- An oracle on which every request succeeds with the id given by `f`. -/
def liftOk (f : PosCall → Nat) : Oracle := fun c => Except.ok (f c)

/-- The POSPage state read by `handleConfirmSale`: the cart slice fields
plus the selected table and the fetched table list. -/
structure PosState where
  items : List CartItem
  customerId : Option Nat
  discount : ℚ
  discountType : DiscountKind
  notes : String
  paymentMethod : PayMethod
  amountReceived : ℚ
  selectedTableId : Option Nat
  tables : List RestaurantTable
deriving DecidableEq, Repr

/-- The direct-sale request body built in the no-table branch. -/
def saleRequestOf (st : PosState) : SaleRequest :=
  { customerId := st.customerId
    paymentMethod := st.paymentMethod
    discountPercent := if st.discountType = DiscountKind.percent then st.discount else 0
    amountReceived := st.amountReceived
    notes := st.notes
    details := st.items.map fun it =>
      { productId := it.id, quantity := it.quantity, unitPrice := it.price,
        discountAmount := 0 } }

/-- The add-items request body built from the cart lines. -/
def tableItemsOf (st : PosState) : List TableItemRequest :=
  st.items.map fun it => { productId := it.id, quantity := it.quantity, unitPrice := it.price }

/-- The pay-table request body (`notes || undefined` becomes `none` for
the empty string). -/
def payRequestOf (st : PosState) : PayTableRequest :=
  { paymentMethod := st.paymentMethod
    amountReceived := st.amountReceived
    discountPercent := if st.discountType = DiscountKind.percent then st.discount else 0
    notes := if st.notes = "" then none else some st.notes }

/-- The `tables.find(t => t.id === selectedTableId)` lookup, with the JS
truthiness of `selectedTableId` (id 0 is falsy) made explicit. -/
def selectedTableOf (st : PosState) : Option RestaurantTable :=
  match st.selectedTableId with
  | none => none
  | some tid => if tid = 0 then none else st.tables.find? (fun t => t.id == tid)

/-- The state updates and refetches performed after a successful final
invoice fetch, in source order; the table branches additionally clear the
table selection and refetch the table list. -/
def successEffects (tableBranch : Bool) (invId : Nat) : List Eff :=
  [Eff.setCompletedInvoice invId, Eff.clearCart] ++
    (if tableBranch then [Eff.clearTableSelection] else []) ++
    [Eff.closePaymentModal, Eff.showInvoiceConfirm, Eff.refetchCatalog] ++
    (if tableBranch then [Eff.refetchTables] else [])

/-- The final `invoiceService.getById` step shared by all branches. -/
def finishWithInvoice (oracle : Oracle) (tableBranch : Bool) (pre : List Eff)
    (invId : Nat) : List Eff :=
  match oracle (PosCall.getInvoice invId) with
  | Except.error e => pre ++ [Eff.call (PosCall.getInvoice invId), Eff.toastError e]
  | Except.ok _ =>
      pre ++ [Eff.call (PosCall.getInvoice invId)] ++ successEffects tableBranch invId

/-- The no-table branch: one `createSale` then the invoice fetch. -/
def directSaleFlow (st : PosState) (oracle : Oracle) : List Eff :=
  match oracle (PosCall.createSale (saleRequestOf st)) with
  | Except.error e => [Eff.call (PosCall.createSale (saleRequestOf st)), Eff.toastError e]
  | Except.ok invId =>
      finishWithInvoice oracle false [Eff.call (PosCall.createSale (saleRequestOf st))] invId

/-- The available-table branch: open (guestCount 1, customer attached),
add items, pay, then the invoice fetch. -/
def availableTableFlow (st : PosState) (tid : Nat) (oracle : Oracle) : List Eff :=
  match oracle (PosCall.openTable tid { guestCount := 1, customerId := st.customerId }) with
  | Except.error e =>
      [Eff.call (PosCall.openTable tid { guestCount := 1, customerId := st.customerId }),
       Eff.toastError e]
  | Except.ok _ =>
      match oracle (PosCall.addItems tid (tableItemsOf st)) with
      | Except.error e =>
          [Eff.call (PosCall.openTable tid { guestCount := 1, customerId := st.customerId }),
           Eff.call (PosCall.addItems tid (tableItemsOf st)), Eff.toastError e]
      | Except.ok _ =>
          match oracle (PosCall.payTable tid (payRequestOf st)) with
          | Except.error e =>
              [Eff.call (PosCall.openTable tid { guestCount := 1, customerId := st.customerId }),
               Eff.call (PosCall.addItems tid (tableItemsOf st)),
               Eff.call (PosCall.payTable tid (payRequestOf st)), Eff.toastError e]
          | Except.ok invId =>
              finishWithInvoice oracle true
                [Eff.call (PosCall.openTable tid { guestCount := 1, customerId := st.customerId }),
                 Eff.call (PosCall.addItems tid (tableItemsOf st)),
                 Eff.call (PosCall.payTable tid (payRequestOf st))] invId

/-- The occupied-table branch: add items to the existing session, pay,
then the invoice fetch (no open call). -/
def occupiedTableFlow (st : PosState) (tid : Nat) (oracle : Oracle) : List Eff :=
  match oracle (PosCall.addItems tid (tableItemsOf st)) with
  | Except.error e => [Eff.call (PosCall.addItems tid (tableItemsOf st)), Eff.toastError e]
  | Except.ok _ =>
      match oracle (PosCall.payTable tid (payRequestOf st)) with
      | Except.error e =>
          [Eff.call (PosCall.addItems tid (tableItemsOf st)),
           Eff.call (PosCall.payTable tid (payRequestOf st)), Eff.toastError e]
      | Except.ok invId =>
          finishWithInvoice oracle true
            [Eff.call (PosCall.addItems tid (tableItemsOf st)),
             Eff.call (PosCall.payTable tid (payRequestOf st))] invId

/-- `handleConfirmSale`: three-way branch on the selected table state. -/
def handleConfirmSale (st : PosState) (oracle : Oracle) : List Eff :=
  match selectedTableOf st with
  | some t =>
      if t.status = TableStatus.DISPONIBLE then availableTableFlow st t.id oracle
      else if t.status = TableStatus.OCUPADA then occupiedTableFlow st t.id oracle
      else directSaleFlow st oracle
  | none => directSaleFlow st oracle

/-- The API calls issued during a run, in order. -/
def callsOf (l : List Eff) : List PosCall :=
  l.filterMap fun e =>
    match e with
    | Eff.call c => some c
    | _ => none

/-- The effect trace of a run in which every request succeeds. -/
def successTrace (st : PosState) (f : PosCall → Nat) : List Eff :=
  handleConfirmSale st (liftOk f)

theorem successTrace_direct (st : PosState) (f : PosCall → Nat)
    (h : selectedTableOf st = none) :
    successTrace st f =
      [Eff.call (PosCall.createSale (saleRequestOf st)),
       Eff.call (PosCall.getInvoice (f (PosCall.createSale (saleRequestOf st)))),
       Eff.setCompletedInvoice (f (PosCall.createSale (saleRequestOf st))),
       Eff.clearCart, Eff.closePaymentModal, Eff.showInvoiceConfirm,
       Eff.refetchCatalog] := by
  simp [successTrace, handleConfirmSale, h, directSaleFlow, liftOk, finishWithInvoice,
    successEffects]

theorem successTrace_other (st : PosState) (t : RestaurantTable) (f : PosCall → Nat)
    (h : selectedTableOf st = some t) (h1 : t.status ≠ TableStatus.DISPONIBLE)
    (h2 : t.status ≠ TableStatus.OCUPADA) :
    successTrace st f =
      [Eff.call (PosCall.createSale (saleRequestOf st)),
       Eff.call (PosCall.getInvoice (f (PosCall.createSale (saleRequestOf st)))),
       Eff.setCompletedInvoice (f (PosCall.createSale (saleRequestOf st))),
       Eff.clearCart, Eff.closePaymentModal, Eff.showInvoiceConfirm,
       Eff.refetchCatalog] := by
  simp [successTrace, handleConfirmSale, h, h1, h2, directSaleFlow, liftOk,
    finishWithInvoice, successEffects]

theorem successTrace_available (st : PosState) (t : RestaurantTable) (f : PosCall → Nat)
    (h : selectedTableOf st = some t) (hs : t.status = TableStatus.DISPONIBLE) :
    successTrace st f =
      [Eff.call (PosCall.openTable t.id { guestCount := 1, customerId := st.customerId }),
       Eff.call (PosCall.addItems t.id (tableItemsOf st)),
       Eff.call (PosCall.payTable t.id (payRequestOf st)),
       Eff.call (PosCall.getInvoice (f (PosCall.payTable t.id (payRequestOf st)))),
       Eff.setCompletedInvoice (f (PosCall.payTable t.id (payRequestOf st))),
       Eff.clearCart, Eff.clearTableSelection, Eff.closePaymentModal,
       Eff.showInvoiceConfirm, Eff.refetchCatalog, Eff.refetchTables] := by
  simp [successTrace, handleConfirmSale, h, hs, availableTableFlow, liftOk,
    finishWithInvoice, successEffects]

theorem successTrace_occupied (st : PosState) (t : RestaurantTable) (f : PosCall → Nat)
    (h : selectedTableOf st = some t) (hs : t.status = TableStatus.OCUPADA) :
    successTrace st f =
      [Eff.call (PosCall.addItems t.id (tableItemsOf st)),
       Eff.call (PosCall.payTable t.id (payRequestOf st)),
       Eff.call (PosCall.getInvoice (f (PosCall.payTable t.id (payRequestOf st)))),
       Eff.setCompletedInvoice (f (PosCall.payTable t.id (payRequestOf st))),
       Eff.clearCart, Eff.clearTableSelection, Eff.closePaymentModal,
       Eff.showInvoiceConfirm, Eff.refetchCatalog, Eff.refetchTables] := by
  have hnd : t.status ≠ TableStatus.DISPONIBLE := by
    rw [hs]
    intro hc
    cases hc
  simp [successTrace, handleConfirmSale, h, hs, hnd, occupiedTableFlow, liftOk,
    finishWithInvoice, successEffects]

/-- Claim C2: the checkout confirmation branches three ways on the
selected table state, each branch ending with one invoice fetch by the
returned id: no table selected issues only a direct-sale creation built
from the cart state followed by the invoice fetch; an available table
issues open (guestCount 1, customer attached), add items, pay, fetch; an
occupied table issues only add items, pay, fetch. -/
theorem c2_checkout_branches (st : PosState) (f : PosCall → Nat) :
    (st.selectedTableId = none →
      callsOf (successTrace st f) =
        [PosCall.createSale (saleRequestOf st),
         PosCall.getInvoice (f (PosCall.createSale (saleRequestOf st)))]) ∧
    (∀ t, selectedTableOf st = some t → t.status = TableStatus.DISPONIBLE →
      callsOf (successTrace st f) =
        [PosCall.openTable t.id { guestCount := 1, customerId := st.customerId },
         PosCall.addItems t.id (tableItemsOf st),
         PosCall.payTable t.id (payRequestOf st),
         PosCall.getInvoice (f (PosCall.payTable t.id (payRequestOf st)))]) ∧
    (∀ t, selectedTableOf st = some t → t.status = TableStatus.OCUPADA →
      callsOf (successTrace st f) =
        [PosCall.addItems t.id (tableItemsOf st),
         PosCall.payTable t.id (payRequestOf st),
         PosCall.getInvoice (f (PosCall.payTable t.id (payRequestOf st)))]) := by
  refine ⟨?_, ?_, ?_⟩
  · intro h
    have hsel : selectedTableOf st = none := by
      simp [selectedTableOf, h]
    rw [successTrace_direct st f hsel]
    simp [callsOf]
  · intro t ht hs
    rw [successTrace_available st t f ht hs]
    simp [callsOf]
  · intro t ht hs
    rw [successTrace_occupied st t f ht hs]
    simp [callsOf]

/-- A concrete available table and POS state used as witness input. -/
def exampleTable : RestaurantTable :=
  { id := 5, tableNumber := 1, name := "T1", status := TableStatus.DISPONIBLE,
    isActive := true }

def examplePosState : PosState :=
  { items := [{ id := 1, code := "A", name := "Product A", price := 10000, quantity := 2 }]
    customerId := none
    discount := 0
    discountType := DiscountKind.percent
    notes := ""
    paymentMethod := PayMethod.EFECTIVO
    amountReceived := 20000
    selectedTableId := some 5
    tables := [exampleTable] }

/-- Witness for C2 on the available-table branch. -/
theorem c2_checkout_branches_witness :
    selectedTableOf examplePosState = some exampleTable ∧
    exampleTable.status = TableStatus.DISPONIBLE ∧
    callsOf (successTrace examplePosState (fun _ => 42)) =
      [PosCall.openTable 5 { guestCount := 1, customerId := none },
       PosCall.addItems 5 (tableItemsOf examplePosState),
       PosCall.payTable 5 (payRequestOf examplePosState),
       PosCall.getInvoice 42] := by
  refine ⟨rfl, rfl, ?_⟩
  exact (c2_checkout_branches examplePosState (fun _ => 42)).2.1 exampleTable rfl rfl

/-! Payment validation (PaymentModal of POSPage.tsx). -/

/-- The confirm-button disabled condition:
`processing || (paymentMethod === EFECTIVO && parseFloat(amountReceived) < total)`. -/
def paymentConfirmDisabled (processing : Bool) (method : PayMethod)
    (amountReceived total : ℚ) : Bool :=
  processing || (method == PayMethod.EFECTIVO && decide (amountReceived < total))

/-- A click on the confirm button: the handler runs only when the button
is enabled, so a disabled button produces no effects and no requests. -/
def attemptConfirmSale (processing : Bool) (total : ℚ) (st : PosState)
    (oracle : Oracle) : List Eff :=
  if paymentConfirmDisabled processing st.paymentMethod st.amountReceived total then []
  else handleConfirmSale st oracle

/-- Opening the payment modal from the Efectivo/Tarjeta buttons: both set
the method and initialise `amountReceived` to the displayed cart total. -/
def openPaymentModal (method : PayMethod) (total : ℚ) (st : PosState) : PosState :=
  { st with paymentMethod := method, amountReceived := total }

/-- A concrete cash state receiving 19999 against a 20000 total. -/
def exampleCashState : PosState :=
  { items := [{ id := 1, code := "A", name := "Product A", price := 20000, quantity := 1 }]
    customerId := none
    discount := 0
    discountType := DiscountKind.percent
    notes := ""
    paymentMethod := PayMethod.EFECTIVO
    amountReceived := 19999
    selectedTableId := none
    tables := [] }

/-- Claim C3: for cash payment every amount received strictly below the
total disables the confirm button, and a click then produces no effects
(in particular no network request); the concrete 19999-against-20000 case
is blocked; for the non-cash method the amount received sent in either
request body equals the displayed cart total. -/
theorem c3_cash_validation :
    (∀ (processing : Bool) (r t : ℚ), r < t →
      paymentConfirmDisabled processing PayMethod.EFECTIVO r t = true) ∧
    (∀ (st : PosState) (t : ℚ) (oracle : Oracle),
      st.paymentMethod = PayMethod.EFECTIVO → st.amountReceived < t →
      attemptConfirmSale false t st oracle = []) ∧
    attemptConfirmSale false 20000 exampleCashState (liftOk fun _ => 1) = [] ∧
    (∀ (st : PosState) (t : ℚ),
      (saleRequestOf (openPaymentModal PayMethod.TARJETA_CREDITO t st)).amountReceived = t ∧
      (payRequestOf (openPaymentModal PayMethod.TARJETA_CREDITO t st)).amountReceived = t) := by
  refine ⟨?_, ?_, ?_, ?_⟩
  · intro pr r t hlt
    simp [paymentConfirmDisabled, hlt]
  · intro st t oracle hm hlt
    simp [attemptConfirmSale, paymentConfirmDisabled, hm, hlt]
  · have h19 : (19999 : ℚ) < 20000 := by norm_num
    simp [attemptConfirmSale, paymentConfirmDisabled, exampleCashState, h19]
  · intro st t
    exact ⟨rfl, rfl⟩

/-- Witness for C3 at the 19999-versus-20000 concrete input. -/
theorem c3_cash_validation_witness :
    exampleCashState.paymentMethod = PayMethod.EFECTIVO ∧
    exampleCashState.amountReceived < 20000 ∧
    attemptConfirmSale false 20000 exampleCashState (liftOk fun _ => 7) = [] := by
  refine ⟨rfl, by norm_num [exampleCashState], ?_⟩
  exact c3_cash_validation.2.1 exampleCashState 20000 (liftOk fun _ => 7) rfl
    (by norm_num [exampleCashState])

/-! Success postconditions and failure handling of the checkout. -/

/-- Counterexample to claim C5 as stated: a successful direct (no-table)
sale clears the cart and refetches the catalog but never refetches the
table list, so the table lists are not refetched on every successful
branch. -/
theorem c5_counterexample :
    successTrace exampleCashState (fun _ => 1) =
      [Eff.call (PosCall.createSale (saleRequestOf exampleCashState)),
       Eff.call (PosCall.getInvoice 1), Eff.setCompletedInvoice 1, Eff.clearCart,
       Eff.closePaymentModal, Eff.showInvoiceConfirm, Eff.refetchCatalog] ∧
    Eff.refetchTables ∉ successTrace exampleCashState (fun _ => 1) := by
  constructor
  · exact successTrace_direct exampleCashState (fun _ => 1) rfl
  · rw [successTrace_direct exampleCashState (fun _ => 1) rfl]
    simp

/-- Claim C5 (amended): on every successful branch the cart is cleared,
the payment modal closes, the invoice is handed to the confirmation step
and the catalog is refetched; the table selection is cleared and the table
list refetched only on the two table branches, while the direct-sale
branch leaves the table selection untouched and does not refetch the
table list. -/
theorem c5_success_postconditions (st : PosState) (f : PosCall → Nat) :
    (selectedTableOf st = none →
      Eff.clearCart ∈ successTrace st f ∧ Eff.closePaymentModal ∈ successTrace st f ∧
      Eff.showInvoiceConfirm ∈ successTrace st f ∧
      Eff.refetchCatalog ∈ successTrace st f ∧
      (∃ i, Eff.setCompletedInvoice i ∈ successTrace st f) ∧
      Eff.refetchTables ∉ successTrace st f ∧
      Eff.clearTableSelection ∉ successTrace st f) ∧
    (∀ t, selectedTableOf st = some t →
      t.status = TableStatus.DISPONIBLE ∨ t.status = TableStatus.OCUPADA →
      Eff.clearCart ∈ successTrace st f ∧ Eff.closePaymentModal ∈ successTrace st f ∧
      Eff.showInvoiceConfirm ∈ successTrace st f ∧
      Eff.refetchCatalog ∈ successTrace st f ∧
      (∃ i, Eff.setCompletedInvoice i ∈ successTrace st f) ∧
      Eff.clearTableSelection ∈ successTrace st f ∧
      Eff.refetchTables ∈ successTrace st f) := by
  constructor
  · intro h
    rw [successTrace_direct st f h]
    refine ⟨by simp, by simp, by simp, by simp,
      ⟨f (PosCall.createSale (saleRequestOf st)), by simp⟩, by simp, by simp⟩
  · intro t ht hs
    rcases hs with hs | hs
    · rw [successTrace_available st t f ht hs]
      refine ⟨by simp, by simp, by simp, by simp,
        ⟨f (PosCall.payTable t.id (payRequestOf st)), by simp⟩, by simp, by simp⟩
    · rw [successTrace_occupied st t f ht hs]
      refine ⟨by simp, by simp, by simp, by simp,
        ⟨f (PosCall.payTable t.id (payRequestOf st)), by simp⟩, by simp, by simp⟩

/-- Witness for C5 (amended) on the available-table branch. -/
theorem c5_success_postconditions_witness :
    selectedTableOf examplePosState = some exampleTable ∧
    (exampleTable.status = TableStatus.DISPONIBLE ∨
      exampleTable.status = TableStatus.OCUPADA) ∧
    Eff.clearCart ∈ successTrace examplePosState (fun _ => 3) ∧
    Eff.refetchTables ∈ successTrace examplePosState (fun _ => 3) := by
  have h := (c5_success_postconditions examplePosState (fun _ => 3)).2 exampleTable rfl
    (Or.inl rfl)
  exact ⟨rfl, Or.inl rfl, h.1, h.2.2.2.2.2.2⟩

theorem failure_shape_no_effects (tr : List Eff) (cs : List PosCall) (e : String)
    (h : tr = cs.map Eff.call ++ [Eff.toastError e]) :
    Eff.refetchTables ∉ tr ∧ Eff.refetchCatalog ∉ tr ∧ Eff.clearCart ∉ tr ∧
    Eff.clearTableSelection ∉ tr := by
  subst h
  refine ⟨?_, ?_, ?_, ?_⟩ <;>
    (intro hmem
     rcases List.mem_append.mp hmem with hm | hm
     · rcases List.mem_map.mp hm with ⟨c, _, hc⟩
       simp at hc
     · simp at hm)

theorem directSaleFlow_failure_shape (st : PosState) (oracle : Oracle) :
    (∃ e, Eff.toastError e ∈ directSaleFlow st oracle) →
    ∃ (cs : List PosCall) (e : String), directSaleFlow st oracle = cs.map Eff.call ++ [Eff.toastError e] := by
  cases h1 : oracle (PosCall.createSale (saleRequestOf st)) with
  | error e =>
    intro _
    exact ⟨[PosCall.createSale (saleRequestOf st)], e, by simp [directSaleFlow, h1]⟩
  | ok invId =>
    cases h2 : oracle (PosCall.getInvoice invId) with
    | error e =>
      intro _
      exact ⟨[PosCall.createSale (saleRequestOf st), PosCall.getInvoice invId], e,
        by simp [directSaleFlow, h1, finishWithInvoice, h2]⟩
    | ok m =>
      intro h
      exfalso
      rcases h with ⟨e0, he0⟩
      have htr : directSaleFlow st oracle =
          [Eff.call (PosCall.createSale (saleRequestOf st)),
           Eff.call (PosCall.getInvoice invId)] ++ successEffects false invId := by
        simp [directSaleFlow, h1, finishWithInvoice, h2]
      rw [htr] at he0
      simp [successEffects] at he0

theorem availableTableFlow_failure_shape (st : PosState) (tid : Nat) (oracle : Oracle) :
    (∃ e, Eff.toastError e ∈ availableTableFlow st tid oracle) →
    ∃ (cs : List PosCall) (e : String), availableTableFlow st tid oracle = cs.map Eff.call ++ [Eff.toastError e] := by
  cases h1 : oracle (PosCall.openTable tid { guestCount := 1, customerId := st.customerId }) with
  | error e =>
    intro _
    exact ⟨[PosCall.openTable tid { guestCount := 1, customerId := st.customerId }], e,
      by simp [availableTableFlow, h1]⟩
  | ok n1 =>
    cases h2 : oracle (PosCall.addItems tid (tableItemsOf st)) with
    | error e =>
      intro _
      exact ⟨[PosCall.openTable tid { guestCount := 1, customerId := st.customerId },
        PosCall.addItems tid (tableItemsOf st)], e,
        by simp [availableTableFlow, h1, h2]⟩
    | ok n2 =>
      cases h3 : oracle (PosCall.payTable tid (payRequestOf st)) with
      | error e =>
        intro _
        exact ⟨[PosCall.openTable tid { guestCount := 1, customerId := st.customerId },
          PosCall.addItems tid (tableItemsOf st),
          PosCall.payTable tid (payRequestOf st)], e,
          by simp [availableTableFlow, h1, h2, h3]⟩
      | ok invId =>
        cases h4 : oracle (PosCall.getInvoice invId) with
        | error e =>
          intro _
          exact ⟨[PosCall.openTable tid { guestCount := 1, customerId := st.customerId },
            PosCall.addItems tid (tableItemsOf st),
            PosCall.payTable tid (payRequestOf st), PosCall.getInvoice invId], e,
            by simp [availableTableFlow, h1, h2, h3, finishWithInvoice, h4]⟩
        | ok m =>
          intro h
          exfalso
          rcases h with ⟨e0, he0⟩
          have htr : availableTableFlow st tid oracle =
              [Eff.call (PosCall.openTable tid { guestCount := 1, customerId := st.customerId }),
               Eff.call (PosCall.addItems tid (tableItemsOf st)),
               Eff.call (PosCall.payTable tid (payRequestOf st)),
               Eff.call (PosCall.getInvoice invId)] ++ successEffects true invId := by
            simp [availableTableFlow, h1, h2, h3, finishWithInvoice, h4]
          rw [htr] at he0
          simp [successEffects] at he0

theorem occupiedTableFlow_failure_shape (st : PosState) (tid : Nat) (oracle : Oracle) :
    (∃ e, Eff.toastError e ∈ occupiedTableFlow st tid oracle) →
    ∃ (cs : List PosCall) (e : String), occupiedTableFlow st tid oracle = cs.map Eff.call ++ [Eff.toastError e] := by
  cases h2 : oracle (PosCall.addItems tid (tableItemsOf st)) with
  | error e =>
    intro _
    exact ⟨[PosCall.addItems tid (tableItemsOf st)], e,
      by simp [occupiedTableFlow, h2]⟩
  | ok n2 =>
    cases h3 : oracle (PosCall.payTable tid (payRequestOf st)) with
    | error e =>
      intro _
      exact ⟨[PosCall.addItems tid (tableItemsOf st),
        PosCall.payTable tid (payRequestOf st)], e,
        by simp [occupiedTableFlow, h2, h3]⟩
    | ok invId =>
      cases h4 : oracle (PosCall.getInvoice invId) with
      | error e =>
        intro _
        exact ⟨[PosCall.addItems tid (tableItemsOf st),
          PosCall.payTable tid (payRequestOf st), PosCall.getInvoice invId], e,
          by simp [occupiedTableFlow, h2, h3, finishWithInvoice, h4]⟩
      | ok m =>
        intro h
        exfalso
        rcases h with ⟨e0, he0⟩
        have htr : occupiedTableFlow st tid oracle =
            [Eff.call (PosCall.addItems tid (tableItemsOf st)),
             Eff.call (PosCall.payTable tid (payRequestOf st)),
             Eff.call (PosCall.getInvoice invId)] ++ successEffects true invId := by
          simp [occupiedTableFlow, h2, h3, finishWithInvoice, h4]
        rw [htr] at he0
        simp [successEffects] at he0

theorem handleConfirmSale_eq_flow (st : PosState) (oracle : Oracle) :
    handleConfirmSale st oracle = directSaleFlow st oracle ∨
    (∃ t, selectedTableOf st = some t ∧
      handleConfirmSale st oracle = availableTableFlow st t.id oracle) ∨
    (∃ t, selectedTableOf st = some t ∧
      handleConfirmSale st oracle = occupiedTableFlow st t.id oracle) := by
  cases hsel : selectedTableOf st with
  | none =>
    left
    simp [handleConfirmSale, hsel]
  | some t =>
    by_cases h1 : t.status = TableStatus.DISPONIBLE
    · right; left
      exact ⟨t, rfl, by simp [handleConfirmSale, hsel, h1]⟩
    · by_cases h2 : t.status = TableStatus.OCUPADA
      · right; right
        exact ⟨t, rfl, by simp [handleConfirmSale, hsel, h1, h2]⟩
      · left
        simp [handleConfirmSale, hsel, h1, h2]

/-- A response oracle on which the add-items request is rejected and
every other request succeeds. -/
def failingOracle : Oracle := fun c =>
  match c with
  | PosCall.addItems _ _ => Except.error "stock"
  | _ => Except.ok 1

/-- Counterexample to claim C6 as stated: on the available-table branch
with the add-items step rejected, the handler only surfaces the error
toast; it issues no further requests and performs no refetch of the table
state, contrary to the claimed reconciliation refetch. -/
theorem c6_counterexample :
    handleConfirmSale examplePosState failingOracle =
      [Eff.call (PosCall.openTable 5 { guestCount := 1, customerId := none }),
       Eff.call (PosCall.addItems 5 (tableItemsOf examplePosState)),
       Eff.toastError "stock"] ∧
    Eff.refetchTables ∉ handleConfirmSale examplePosState failingOracle := by
  have htr : handleConfirmSale examplePosState failingOracle =
      [Eff.call (PosCall.openTable 5 { guestCount := 1, customerId := none }),
       Eff.call (PosCall.addItems 5 (tableItemsOf examplePosState)),
       Eff.toastError "stock"] := rfl
  constructor
  · exact htr
  · rw [htr]
    simp

/-- Claim C6 (amended): when any step of a checkout sequence fails, the
handler surfaces the failure as an error toast and stops: the trace is the
calls attempted so far followed by the toast, with no rollback calls, no
cart clearing, and no refetch of the catalog or table lists (the catch
block performs no reconciliation refetch). -/
theorem c6_failure_handling (st : PosState) (oracle : Oracle) :
    (∃ e, Eff.toastError e ∈ handleConfirmSale st oracle) →
    (∃ (cs : List PosCall) (e : String), handleConfirmSale st oracle = cs.map Eff.call ++ [Eff.toastError e]) ∧
    Eff.refetchTables ∉ handleConfirmSale st oracle ∧
    Eff.refetchCatalog ∉ handleConfirmSale st oracle ∧
    Eff.clearCart ∉ handleConfirmSale st oracle := by
  intro h
  have hshape : ∃ (cs : List PosCall) (e : String), handleConfirmSale st oracle = cs.map Eff.call ++ [Eff.toastError e] := by
    rcases handleConfirmSale_eq_flow st oracle with heq | ⟨t, _, heq⟩ | ⟨t, _, heq⟩
    · rw [heq] at h ⊢
      exact directSaleFlow_failure_shape st oracle h
    · rw [heq] at h ⊢
      exact availableTableFlow_failure_shape st t.id oracle h
    · rw [heq] at h ⊢
      exact occupiedTableFlow_failure_shape st t.id oracle h
  rcases hshape with ⟨cs, e, htr⟩
  have hno := failure_shape_no_effects _ cs e htr
  exact ⟨⟨cs, e, htr⟩, hno.1, hno.2.1, hno.2.2.1⟩

/-- Witness for C6 (amended) on the concrete failing run. -/
theorem c6_failure_handling_witness :
    Eff.toastError "stock" ∈ handleConfirmSale examplePosState failingOracle ∧
    Eff.refetchTables ∉ handleConfirmSale examplePosState failingOracle := by
  have htr : handleConfirmSale examplePosState failingOracle =
      [Eff.call (PosCall.openTable 5 { guestCount := 1, customerId := none }),
       Eff.call (PosCall.addItems 5 (tableItemsOf examplePosState)),
       Eff.toastError "stock"] := rfl
  have hm : Eff.toastError "stock" ∈ handleConfirmSale examplePosState failingOracle := by
    rw [htr]
    simp
  exact ⟨hm, ((c6_failure_handling examplePosState failingOracle) ⟨"stock", hm⟩).2.1⟩

/-! Table-session reconciliation (TablesPage.tsx): `handleAddItems`,
`handleRemoveItem` and `handlePayTable`.  Each handler is embedded as a
function from the page state and the session object carried by the
(successful) response to the new page state plus the list of effects, in
order.  `handlePayTable` receives the response value too, which the source
discards (`await tableService.payTable(...)` without binding). -/

structure TableSessionM where
  id : Nat
  invoiceNumber : String
  total : ℚ
deriving DecidableEq, Repr

inductive TableCall where
  | addItems (tableId : Nat) (items : List TableItemRequest)
  | removeItem (tableId : Nat) (detailId : Nat)
  | pay (tableId : Nat) (paymentMethod : PayMethod) (amountReceived : ℚ)
deriving DecidableEq, Repr

inductive TEff where
  | call (c : TableCall)
  | toastSuccess
  | refetchTables
deriving DecidableEq, Repr

/-- The TablesPage state read and written by the three handlers. -/
structure TPState where
  selectedTable : Option RestaurantTable
  activeSession : Option TableSessionM
  itemsToAdd : List DraftItem
  paymentMethod : PayMethod
  amountReceived : ℚ
  searchTerm : String
  showAddItemsModal : Bool
  showPayModal : Bool
deriving DecidableEq, Repr

/-- `handleAddItems`: guarded on a selected table and a non-empty draft
list; on success the returned session replaces `activeSession`, the modal
closes, the draft list and search are reset, and the table list is
refetched. -/
def handleAddItems (st : TPState) (res : TableSessionM) : TPState × List TEff :=
  match st.selectedTable with
  | none => (st, [])
  | some t =>
      if st.itemsToAdd.length = 0 then (st, [])
      else
        ({ st with
            activeSession := some res
            showAddItemsModal := false
            itemsToAdd := []
            searchTerm := "" },
         [TEff.call (TableCall.addItems t.id (st.itemsToAdd.map fun i =>
            { productId := i.productId
              quantity := i.quantity.toNat
              unitPrice := i.salePrice })),
          TEff.toastSuccess, TEff.refetchTables])

/-- `handleRemoveItem`: guarded on a selected table; on success the
returned session replaces `activeSession` and the table list is
refetched. -/
def handleRemoveItem (st : TPState) (detailId : Nat) (res : TableSessionM) :
    TPState × List TEff :=
  match st.selectedTable with
  | none => (st, [])
  | some t =>
      ({ st with activeSession := some res },
       [TEff.call (TableCall.removeItem t.id detailId), TEff.toastSuccess,
        TEff.refetchTables])

/-- `handlePayTable`: guarded on a selected table and an active session;
the response value `res` is discarded, the pay modal closes, the amount
field resets, the selected table and the active session are cleared, and
the table list is refetched. -/
def handlePayTable (st : TPState) (res : TableSessionM) : TPState × List TEff :=
  match st.selectedTable, st.activeSession with
  | some t, some _ =>
      ({ st with
          showPayModal := false
          amountReceived := 0
          selectedTable := none
          activeSession := none },
       [TEff.call (TableCall.pay t.id st.paymentMethod st.amountReceived),
        TEff.toastSuccess, TEff.refetchTables])
  | _, _ => (st, [])

/-- Concrete TablesPage state: table 5 selected and occupied by an open
session. -/
def exampleTPState : TPState :=
  { selectedTable := some
      { id := 5
        tableNumber := 1
        name := "T1"
        status := TableStatus.OCUPADA
        isActive := true }
    activeSession := some { id := 11, invoiceNumber := "F-11", total := 12000 }
    itemsToAdd := [{ productId := 1, salePrice := 4000, quantity := 3 }]
    paymentMethod := PayMethod.EFECTIVO
    amountReceived := 12000
    searchTerm := ""
    showAddItemsModal := false
    showPayModal := true }

/-- The session object carried by a pay response. -/
def examplePaidSession : TableSessionM :=
  { id := 11, invoiceNumber := "F-11", total := 12000 }

/-- Counterexample to claim C7 as stated: after `handlePayTable` the
returned session object does not replace `activeSession`; the response is
discarded and `activeSession` is cleared to `none`. -/
theorem c7_counterexample :
    (handlePayTable exampleTPState examplePaidSession).1.activeSession = none ∧
    (handlePayTable exampleTPState examplePaidSession).1.activeSession ≠
      some examplePaidSession := by
  have h0 : (handlePayTable exampleTPState examplePaidSession).1.activeSession = none := rfl
  refine ⟨h0, ?_⟩
  rw [h0]
  intro h
  exact Option.noConfusion h

/-- Claim C7 (amended): after `addItems` and `removeItem` the session
object returned by the call unconditionally replaces the locally held
`activeSession` (no field-level merge), and after `pay` the response is
discarded while the selected table and the active session are both
cleared; the full table list is refetched after each of the three
operations. -/
theorem c7_session_replacement (st : TPState) (res : TableSessionM)
    (t : RestaurantTable) (h : st.selectedTable = some t) :
    (st.itemsToAdd ≠ [] →
      (handleAddItems st res).1.activeSession = some res ∧
      TEff.refetchTables ∈ (handleAddItems st res).2) ∧
    (∀ detailId, (handleRemoveItem st detailId res).1.activeSession = some res ∧
      TEff.refetchTables ∈ (handleRemoveItem st detailId res).2) ∧
    (∀ s0, st.activeSession = some s0 →
      (handlePayTable st res).1.activeSession = none ∧
      (handlePayTable st res).1.selectedTable = none ∧
      TEff.refetchTables ∈ (handlePayTable st res).2) := by
  refine ⟨?_, ?_, ?_⟩
  · intro hne
    have hlen : st.itemsToAdd.length ≠ 0 := by
      intro hc
      exact hne (List.length_eq_zero.mp hc)
    simp [handleAddItems, h, hlen]
  · intro detailId
    simp [handleRemoveItem, h]
  · intro s0 hs
    simp [handlePayTable, h, hs]

/-- Witness for C7 (amended) at the concrete occupied-table state. -/
theorem c7_session_replacement_witness :
    exampleTPState.selectedTable = some
      { id := 5
        tableNumber := 1
        name := "T1"
        status := TableStatus.OCUPADA
        isActive := true } ∧
    exampleTPState.activeSession = some { id := 11, invoiceNumber := "F-11", total := 12000 } ∧
    (handlePayTable exampleTPState examplePaidSession).1.activeSession = none ∧
    TEff.refetchTables ∈ (handlePayTable exampleTPState examplePaidSession).2 := by
  have h := (c7_session_replacement exampleTPState examplePaidSession
    { id := 5
      tableNumber := 1
      name := "T1"
      status := TableStatus.OCUPADA
      isActive := true } rfl).2.2
    { id := 11, invoiceNumber := "F-11", total := 12000 } rfl
  exact ⟨rfl, rfl, h.1, h.2.2⟩

/-! Invoice voiding and list partitioning (InvoicesPage.tsx). -/

inductive InvoiceStatus where
  | COMPLETADA
  | ANULADA
  | PENDIENTE
deriving DecidableEq, Repr

structure InvoiceM where
  id : Nat
  invoiceNumber : String
  status : InvoiceStatus
  total : ℚ
deriving DecidableEq, Repr

inductive IEff where
  | callVoid (invoiceId : Nat) (reason : String)
  | toastSuccess
  | closeVoidModal
  | refetchInvoices
deriving DecidableEq, Repr

/-- The JS `String.prototype.trim`: drop leading and trailing whitespace
(written over the character list so that it evaluates in the kernel). -/
def jsTrim (s : String) : String :=
  String.mk (((s.data.dropWhile Char.isWhitespace).reverse.dropWhile
    Char.isWhitespace).reverse)

/-- `handleVoid`: returns early when no invoice is selected or the reason
trims to the empty string; otherwise issues the void request and on
success toasts, closes the modal and refetches the invoice list. -/
def handleVoid (selectedInvoice : Option InvoiceM) (voidReason : String) : List IEff :=
  match selectedInvoice with
  | none => []
  | some inv =>
      if jsTrim voidReason = "" then []
      else [IEff.callVoid inv.id voidReason, IEff.toastSuccess, IEff.closeVoidModal,
        IEff.refetchInvoices]

/-- The active tab partition: `invoices.filter(inv => inv.status !== ANULADA)`. -/
def activeInvoices (invoices : List InvoiceM) : List InvoiceM :=
  invoices.filter (fun inv => !(inv.status == InvoiceStatus.ANULADA))

/-- The voided tab partition: `invoices.filter(inv => inv.status === ANULADA)`. -/
def voidedInvoices (invoices : List InvoiceM) : List InvoiceM :=
  invoices.filter (fun inv => inv.status == InvoiceStatus.ANULADA)

/-- Claim C8: voiding requires a reason that does not trim to the empty
string (otherwise no request is issued and no effect happens); with a
selected invoice and usable reason exactly one void request is issued; and
the active/voided partition is a pure complementary filter over the status
field: an invoice is in the voided partition iff its status is ANULADA,
and in the active partition otherwise. -/
theorem c8_void_invoice :
    (∀ (si : Option InvoiceM) (r : String), jsTrim r = "" → handleVoid si r = []) ∧
    (∀ (inv : InvoiceM) (r : String), jsTrim r ≠ "" →
      handleVoid (some inv) r =
        [IEff.callVoid inv.id r, IEff.toastSuccess, IEff.closeVoidModal,
         IEff.refetchInvoices]) ∧
    (∀ (invoices : List InvoiceM) (inv : InvoiceM),
      (inv ∈ voidedInvoices invoices ↔
        inv ∈ invoices ∧ inv.status = InvoiceStatus.ANULADA) ∧
      (inv ∈ activeInvoices invoices ↔
        inv ∈ invoices ∧ inv.status ≠ InvoiceStatus.ANULADA)) := by
  refine ⟨?_, ?_, ?_⟩
  · intro si r h
    cases si with
    | none => rfl
    | some inv => simp [handleVoid, h]
  · intro inv r h
    simp [handleVoid, h]
  · intro invoices inv
    constructor
    · simp [voidedInvoices, List.mem_filter]
    · simp [activeInvoices, List.mem_filter]

/-- A concrete completed invoice. -/
def exampleInvoice : InvoiceM :=
  { id := 9
    invoiceNumber := "F-9"
    status := InvoiceStatus.COMPLETADA
    total := 100 }

/-- Witness for C8: a whitespace-only reason issues nothing, a real
reason issues the void request. -/
theorem c8_void_invoice_witness :
    (jsTrim " " = "") ∧
    handleVoid (some exampleInvoice) " " = [] ∧
    (jsTrim "err" ≠ "") ∧
    handleVoid (some exampleInvoice) "err" =
      [IEff.callVoid 9 "err", IEff.toastSuccess, IEff.closeVoidModal,
       IEff.refetchInvoices] := by
  have h1 : (jsTrim " " = "") := by decide
  have h2 : (jsTrim "err" ≠ "") := by decide
  refine ⟨h1, ?_, h2, ?_⟩
  · exact c8_void_invoice.1 (some exampleInvoice) " " h1
  · exact c8_void_invoice.2.1 exampleInvoice "err" h2

/-! Server-sent-events subscription (useSseEvents hook). -/

inductive SseEventName where
  | connected
  | new_order
  | kitchen_update
  | order_paid
deriving DecidableEq, Repr

inductive SseAction (J : Type) where
  | notifyConnected
  | notifyNewOrder (payload : J)
  | notifyKitchenUpdate (payload : J)
  | notifyOrderPaid (payload : J)
  | ignored
deriving DecidableEq, Repr

/-- The per-event listeners attached by `useSseEvents.connect`: the
`connected` listener invokes its callback without reading the event data;
the three data listeners run `JSON.parse` (modelled by the `parse`
parameter) on the event data, ignoring the event when parsing throws. -/
def handleNamedEvent {J : Type} (parse : String → Option J) :
    SseEventName → String → SseAction J
  | SseEventName.connected, _ => SseAction.notifyConnected
  | SseEventName.new_order, d =>
      match parse d with
      | some j => SseAction.notifyNewOrder j
      | none => SseAction.ignored
  | SseEventName.kitchen_update, d =>
      match parse d with
      | some j => SseAction.notifyKitchenUpdate j
      | none => SseAction.ignored
  | SseEventName.order_paid, d =>
      match parse d with
      | some j => SseAction.notifyOrderPaid j
      | none => SseAction.ignored

/-- Connection state of the hook: whether an event source is open and the
pending reconnect delay in milliseconds. -/
structure SseConn where
  sourceOpen : Bool
  reconnectTimerMs : Option Nat
deriving DecidableEq, Repr

/-- The `onerror` handler: close the current source and schedule a
reconnect 5000 milliseconds later. -/
def onSseError (_st : SseConn) : SseConn :=
  { sourceOpen := false, reconnectTimerMs := some 5000 }

/-- Counterexample to claim C9 as stated: the `connected` listener does
not parse its payload as JSON; on data no parser accepts it still fires
its callback, while the `new_order` listener ignores such an event. -/
theorem c9_counterexample :
    handleNamedEvent (fun _ => (none : Option Nat)) SseEventName.connected "not json" =
      SseAction.notifyConnected ∧
    handleNamedEvent (fun _ => (none : Option Nat)) SseEventName.connected "not json" ≠
      SseAction.ignored ∧
    handleNamedEvent (fun _ => (none : Option Nat)) SseEventName.new_order "not json" =
      SseAction.ignored := by
  refine ⟨rfl, ?_, rfl⟩
  intro h
  exact SseAction.noConfusion h

/-- Claim C9 (amended): after any stream error the client closes the
current event source and schedules a reconnect 5000 ms (5 s) later; the
subscription handles the four named events, the three data events parsing
their payload as JSON (delivering the parsed value on success, ignoring
the event on failure), while `connected` merely invokes its callback
without reading the payload. -/
theorem c9_sse_reconnect (st : SseConn) (J : Type) (parse : String → Option J)
    (d : String) :
    (onSseError st).sourceOpen = false ∧
    (onSseError st).reconnectTimerMs = some 5000 ∧
    (∀ j, parse d = some j →
      handleNamedEvent parse SseEventName.new_order d = SseAction.notifyNewOrder j ∧
      handleNamedEvent parse SseEventName.kitchen_update d =
        SseAction.notifyKitchenUpdate j ∧
      handleNamedEvent parse SseEventName.order_paid d = SseAction.notifyOrderPaid j) ∧
    (parse d = none →
      handleNamedEvent parse SseEventName.new_order d = SseAction.ignored ∧
      handleNamedEvent parse SseEventName.kitchen_update d = SseAction.ignored ∧
      handleNamedEvent parse SseEventName.order_paid d = SseAction.ignored) ∧
    handleNamedEvent parse SseEventName.connected d = SseAction.notifyConnected := by
  refine ⟨rfl, rfl, ?_, ?_, rfl⟩
  · intro j hj
    refine ⟨?_, ?_, ?_⟩ <;> simp [handleNamedEvent, hj]
  · intro hn
    refine ⟨?_, ?_, ?_⟩ <;> simp [handleNamedEvent, hn]

/-- Witness for C9 (amended) at a concrete parser and payload. -/
theorem c9_sse_reconnect_witness :
    ((fun s => if s = "1" then some 1 else (none : Option Nat)) "1" = some 1) ∧
    (onSseError { sourceOpen := true, reconnectTimerMs := none }).reconnectTimerMs =
      some 5000 ∧
    handleNamedEvent (fun s => if s = "1" then some 1 else (none : Option Nat))
      SseEventName.new_order "1" = SseAction.notifyNewOrder 1 := by
  have hp : ((fun s => if s = "1" then some 1 else (none : Option Nat)) "1" = some 1) := by
    simp
  have h := c9_sse_reconnect { sourceOpen := true, reconnectTimerMs := none }
    Nat (fun s => if s = "1" then some 1 else (none : Option Nat)) "1"
  exact ⟨hp, h.2.1, (h.2.2.1 1 hp).1⟩

end PosMorales
